import Mathlib

/-!
Shallow embedding of the decision-and-orchestration core of the
`Dyson_WOApp` preventive-maintenance backend (FastAPI + SQLAlchemy),
covering `machine_service.py`, `work_order_service.py`, `ai_service.py`,
`notification_service.py`, `workflow_log_service.py` and the routers
`work_orders.py` / `workflow_webhooks.py`.

Modelling conventions:
- Calendar dates and timestamps are integer day numbers (`Int`);
  every use of `datetime.now()` in the source appears here as an explicit
  `today` argument.
- Confidence values are Python floats rounded to two decimals; they are
  modelled as rationals.  On two-decimal values the float comparisons
  performed by the source agree with the rational ones.
- Databases are in-memory lists of rows; SQLAlchemy `.first()` is
  `List.find?`, `.all()` with a filter is `List.filter`, and committing an
  attribute mutation is a map over the corresponding list.
- Status, decision, priority and frequency values are the literal strings
  the source compares against.
-/

namespace DysonPM

/-- `MachineService.calculate_pm_status` (machine_service.py):
classifies urgency from `next_pm_date` and today. -/
def calculate_pm_status (next_pm_date today : Int) : String :=
  let days_until := next_pm_date - today
  if days_until < 0 then "overdue"
  else if days_until ≤ 30 then "due_soon"
  else "ok"

/-- The frequency lookup table of `WorkOrderService._calculate_next_pm_date`
(work_order_service.py): `frequency_days.get(pm_frequency, 30)`. -/
def frequency_days (pm_frequency : String) : Nat :=
  if pm_frequency = "Monthly" then 30
  else if pm_frequency = "Bimonthly" then 60
  else if pm_frequency = "Quarterly" then 90
  else if pm_frequency = "Yearly" then 365
  else 30

/-- `WorkOrderService._calculate_next_pm_date` (work_order_service.py). -/
def calculate_next_pm_date (from_date : Int) (pm_frequency : String) : Int :=
  from_date + frequency_days pm_frequency

/-- Python `f"{n:04d}"`: decimal representation left-padded with zeros to
width four. -/
def pad4 (n : Nat) : String :=
  let s := toString n
  if s.length < 4 then String.mk (List.replicate (4 - s.length) '0') ++ s else s

/-- The `f"WO-{year}-"` filter string of `_generate_wo_number`. -/
def wo_year_pfx (year : Nat) : String := "WO-" ++ toString year ++ "-"

/-- Python `s.startswith(pfx)` / SQL `LIKE "{pfx}%"`, character-wise. -/
def starts_with (s pfx : String) : Bool :=
  pfx.data.isPrefixOf s.data

/-- Lexicographic order on code points, as Python compares `str` values
(and as the `wo_number` column is ordered). -/
def chars_lt : List Char → List Char → Bool
  | [], [] => false
  | [], _ :: _ => true
  | _ :: _, [] => false
  | a :: as, b :: bs =>
    if a.toNat < b.toNat then true
    else if b.toNat < a.toNat then false
    else chars_lt as bs

/-- String comparison used when picking the greatest stored `wo_number`. -/
def str_lt (s t : String) : Bool := chars_lt s.data t.data

/-- One step of taking the greatest string seen so far. -/
def pick_latest (acc : Option String) (s : String) : Option String :=
  match acc with
  | none => some s
  | some t => if str_lt t s then some s else some t

/-- The `order_by(wo_number.desc()).first()` step of `_generate_wo_number`
restricted to `LIKE "WO-{year}-%"`: the lexicographically greatest stored
number carrying the year marker. -/
def latest_wo_number (stored : List String) (pfx : String) : Option String :=
  (stored.filter (fun s => starts_with s pfx)).foldl pick_latest none

/-- Python `s.split("-")[-1]`: the suffix after the last dash (the whole
string when no dash occurs). -/
def after_last_dash (s : String) : String :=
  String.mk (s.data.reverse.takeWhile (fun c => c != '-')).reverse

/-- Python `int(s)` on the sequence field, `ValueError` as `none`
(leading zeros are accepted, as in Python). -/
def parse_seq (s : String) : Option Nat :=
  if s.data ≠ [] ∧ s.data.all Char.isDigit then
    some (s.data.foldl (fun acc c => acc * 10 + (c.toNat - 48)) 0)
  else none

/-- `WorkOrderService._generate_wo_number` (work_order_service.py) as a
function of the current year and of the stored `wo_number` column. -/
def generate_wo_number (year : Nat) (stored : List String) : String :=
  let pfx := wo_year_pfx year
  let seq_num : Nat :=
    match latest_wo_number stored pfx with
    | some wo_num =>
      match parse_seq (after_last_dash wo_num) with
      | some n => n + 1
      | none => 1
    | none => 1
  pfx ++ pad4 seq_num

/-- The character for decimal digit `d`. -/
def dchar (d : Nat) : Char := Char.ofNat (48 + d)

/-- The canonical 4-digit zero-padded decimal rendering of a sequence
number below 10000, i.e. the shape `NNNN` of a well-formed stored
`wo_number`. -/
def quad (n : Nat) : String :=
  String.mk [dchar (n / 1000), dchar (n / 100 % 10), dchar (n / 10 % 10), dchar (n % 10)]

/-- A stored work-order number in the canonical `WO-{year}-{seq:04d}`
format. -/
def canonical_wo (year k : Nat) : String := wo_year_pfx year ++ quad k

/-- The greatest element of a nonempty list, `none` for the empty list
(the numeric counterpart of the stored-number maximum). -/
def max_head : List Nat → Option Nat
  | [] => none
  | k :: tl => some (tl.foldl max k)

/-- `machines` row (models/machine.py).  Timestamp audit columns
(`created_at`, `updated_at`) are omitted: nothing in the core logic reads
them. -/
structure Machine where
  id : Nat
  machine_id : String
  name : String
  location : String
  pm_frequency : String
  last_pm_date : Option Int
  next_pm_date : Int
  status : String
  assigned_supplier : String
  supplier_email : Option String
deriving Repr, DecidableEq

/-- `work_orders` row (models/work_order.py).  The audit timestamps
(`created_at`, `updated_at`, `approved_at`, `notification_sent_at`) and
`approved_by` are omitted: no claim reads them. -/
structure WorkOrder where
  id : Nat
  wo_number : String
  machine_id : Nat
  status : String
  priority : String
  creation_source : String
  ai_decision_id : Option Nat
  scheduled_date : Option Int
  completed_date : Option Int
  notes : Option String
  notification_sent : Bool
deriving Repr, DecidableEq

/-- `maintenance_history` row (models/maintenance_history.py). -/
structure MaintenanceHistory where
  machine_id : Nat
  maintenance_date : Int
  maintenance_type : String
  notes : String
  performed_by : String
  work_order_id : Option Nat
deriving Repr, DecidableEq

/-- `ai_decisions` row (models/ai_decision.py).  The free-text audit
columns (`input_context`, `llm_provider`, `llm_model`, `raw_response`) and
`created_at` are omitted: the execution logic never reads them. -/
structure AIDecision where
  id : Nat
  machine_id : Nat
  decision : String
  priority : String
  confidence : ℚ
  explanation : String
  auto_executed : Bool
  requires_review : Bool
deriving Repr, DecidableEq

/-- The persistent state the services operate on. -/
structure DB where
  machines : List Machine
  work_orders : List WorkOrder
  ai_decisions : List AIDecision
  maintenance_history : List MaintenanceHistory
deriving Repr, DecidableEq

/-- `db.query(Machine).filter(Machine.id == id).first()`. -/
def find_machine (db : DB) (id : Nat) : Option Machine :=
  db.machines.find? (fun m => m.id == id)

/-- `db.query(AIDecision).filter(AIDecision.id == id).first()`. -/
def find_decision (db : DB) (id : Nat) : Option AIDecision :=
  db.ai_decisions.find? (fun d => d.id == id)

/-- `WorkOrderService.get_work_order_by_id`. -/
def find_work_order (db : DB) (id : Nat) : Option WorkOrder :=
  db.work_orders.find? (fun w => w.id == id)

/-- `WorkOrderService.get_work_order_by_wo_number`. -/
def find_wo_by_number (db : DB) (wo_number : String) : Option WorkOrder :=
  db.work_orders.find? (fun w => w.wo_number == wo_number)

/-- Committing `ai_decision.auto_executed = True`. -/
def set_decision_executed (db : DB) (id : Nat) : DB :=
  { db with ai_decisions :=
      db.ai_decisions.map (fun d => if d.id == id then { d with auto_executed := true } else d) }

/-- `WorkOrderService.mark_notification_sent` (the timestamp column is
omitted from the model). -/
def mark_notification_sent (db : DB) (wo_id : Nat) : DB :=
  { db with work_orders :=
      db.work_orders.map (fun w => if w.id == wo_id then { w with notification_sent := true } else w) }

/-- Committing a replacement row for one work order. -/
def set_work_order (db : DB) (wo_id : Nat) (wo : WorkOrder) : DB :=
  { db with work_orders := db.work_orders.map (fun w => if w.id == wo_id then wo else w) }

/-- Committing a replacement row for one machine. -/
def set_machine (db : DB) (machine_id : Nat) (m : Machine) : DB :=
  { db with machines := db.machines.map (fun x => if x.id == machine_id then m else x) }

/-- Autoincrement primary key for a new work order. -/
def next_wo_id (db : DB) : Nat :=
  (db.work_orders.map (fun w => w.id)).foldl max 0 + 1

/-- Autoincrement primary key for a new AI decision. -/
def next_decision_id (db : DB) : Nat :=
  (db.ai_decisions.map (fun d => d.id)).foldl max 0 + 1

/-- Python truthiness of `machine.supplier_email` (`None` and `""` are
falsy). -/
def email_present : Option String → Bool
  | none => false
  | some e => !(e == "")

/-- `NotificationService.send_work_order_notification`: `False` without a
supplier email, otherwise the outcome of `_send_email`, abstracted as the
environment flag `smtp_ok` (SMTP configured and transport succeeded). -/
def send_work_order_notification (smtp_ok : Bool) (m : Machine) : Bool :=
  if email_present m.supplier_email then smtp_ok else false

/-- `NotificationService.send_approval_notification`, same gate. -/
def send_approval_notification (smtp_ok : Bool) (m : Machine) : Bool :=
  if email_present m.supplier_email then smtp_ok else false

/-- `NotificationService.send_completion_notification`, same gate. -/
def send_completion_notification (smtp_ok : Bool) (m : Machine) : Bool :=
  if email_present m.supplier_email then smtp_ok else false

/-- The `additional_context` dict built by
`AIService._send_notification_from_decision`: optional `explanation` and
`confidence` keys. -/
structure AiContext where
  explanation : Option String
  confidence : Option ℚ
deriving Repr, DecidableEq

/-- The rendering of `NotificationService._add_ai_context`: either the
empty string or an AI-decision block carrying the explanation and, when
the `confidence` key is present, the confidence value. -/
inductive AiBlock
  | empty
  | block (explanation : String) (confidence : Option ℚ)
deriving Repr, DecidableEq

/-- `NotificationService._add_ai_context` (notification_service.py
lines 425-436). -/
def add_ai_context : Option AiContext → AiBlock
  | none => .empty
  | some ctx =>
    match ctx.explanation with
    | none => .empty
    | some e => .block e ctx.confidence

/-- Which e-mail template a dispatch used. -/
inductive Template
  | workOrder
  | approval
  | completion
deriving Repr, DecidableEq

/-- One e-mail dispatch attempted during an operation, with the template
chosen and the AI-context block passed along (only the generic work-order
template accepts one). -/
structure Notice where
  template : Template
  machine_id : Nat
  work_order_id : Nat
  ai_context : Option AiContext
  email_sent : Bool
deriving Repr, DecidableEq

/-- `WorkOrderCreate` schema (schemas/work_order.py), as used by the
creation paths. -/
structure WorkOrderCreate where
  machine_id : Nat
  creation_source : String
  ai_decision_id : Option Nat
  priority : String
  status : String
  notes : Option String
  scheduled_date : Option Int
deriving Repr, DecidableEq

/-- `WorkOrderService.create_work_order`: generates the WO number from the
stored numbers and inserts the new row. -/
def create_work_order (db : DB) (year : Nat) (wo_data : WorkOrderCreate) : DB × WorkOrder :=
  let wo_number := generate_wo_number year (db.work_orders.map (fun w => w.wo_number))
  let wo : WorkOrder := {
    id := next_wo_id db
    wo_number := wo_number
    machine_id := wo_data.machine_id
    status := wo_data.status
    priority := wo_data.priority
    creation_source := wo_data.creation_source
    ai_decision_id := wo_data.ai_decision_id
    scheduled_date := wo_data.scheduled_date
    completed_date := none
    notes := wo_data.notes
    notification_sent := false }
  ({ db with work_orders := db.work_orders ++ [wo] }, wo)

/-- The maintenance-history note
`f"Completed work order {wo_number}. {notes or ''}".strip()` (assuming the
stored notes carry no surrounding whitespace). -/
def completion_notes (wo_number : String) (notes : Option String) : String :=
  match notes with
  | some n =>
    if n = "" then "Completed work order " ++ wo_number ++ "."
    else "Completed work order " ++ wo_number ++ ". " ++ n
  | none => "Completed work order " ++ wo_number ++ "."

/-- `WorkOrderService.complete_work_order` (work_order_service.py lines
156-212).  The Python signature takes only `wo_id`; every date it writes
is derived from `datetime.now().date()`, here the explicit `today`.
(The router passes a second `completed_date` argument that this signature
cannot accept — see `complete_work_order_route`.) -/
def complete_work_order (db : DB) (wo_id : Nat) (today : Int) : Option (DB × WorkOrder) :=
  match find_work_order db wo_id with
  | none => none
  | some wo =>
    let wo1 := { wo with status := "Completed", completed_date := some today }
    let db1 := set_work_order db wo_id wo1
    match find_machine db1 wo.machine_id with
    | none => some (db1, wo1)
    | some m =>
      let base_date := match wo1.scheduled_date with | some s => s | none => today
      let m1 := { m with
        last_pm_date := some today
        next_pm_date := calculate_next_pm_date base_date m.pm_frequency }
      let db2 := set_machine db1 wo.machine_id m1
      let record : MaintenanceHistory := {
        machine_id := wo.machine_id
        maintenance_date := today
        maintenance_type := "Preventive"
        notes := completion_notes wo1.wo_number wo1.notes
        performed_by := m.assigned_supplier
        work_order_id := some wo1.id }
      some ({ db2 with maintenance_history := db2.maintenance_history ++ [record] }, wo1)

/-- Rejections of the `POST /work-orders/{id}/complete` handler. -/
inductive CompleteErr
  | not_found
  | invalid_state (status : String)
  | future_completion_date
  | before_scheduled_date (scheduled : Int)
deriving Repr, DecidableEq

/-- The tail of the complete handler after validation: call the service,
then send the completion notification and mark it on success. -/
def complete_and_notify (db : DB) (wo_id : Nat) (today : Int) (smtp_ok : Bool) :
    Except CompleteErr (DB × WorkOrder) :=
  match complete_work_order db wo_id today with
  | none => .error .not_found
  | some (db1, wo1) =>
    match find_machine db1 wo1.machine_id with
    | none => .ok (db1, wo1)
    | some m =>
      if send_completion_notification smtp_ok m then
        .ok (mark_notification_sent db1 wo_id, { wo1 with notification_sent := true })
      else .ok (db1, wo1)

/-- `complete_work_order` router handler (routers/work_orders.py lines
190-254): guards, then the service call.  The Python handler calls
`service.complete_work_order(wo_id, completion_data.completed_date)` even
though the service accepts only `wo_id` (a `TypeError` at runtime); the
model follows the service body, which ignores the supplied date and uses
`today` throughout. -/
def complete_work_order_route (db : DB) (wo_id : Nat) (completed_date today : Int)
    (smtp_ok : Bool) : Except CompleteErr (DB × WorkOrder) :=
  match find_work_order db wo_id with
  | none => .error .not_found
  | some wo =>
    if wo.status ≠ "Approved" then .error (.invalid_state wo.status)
    else if today < completed_date then .error .future_completion_date
    else
      match wo.scheduled_date with
      | some sd =>
        if completed_date < sd then .error (.before_scheduled_date sd)
        else complete_and_notify db wo_id today smtp_ok
      | none => complete_and_notify db wo_id today smtp_ok

/-- `CONFIDENCE_THRESHOLD` (config.py, default 0.7). -/
def CONFIDENCE_THRESHOLD : ℚ := 7/10

/-- The schema-validated reply of the Decision Oracle
(`provider.get_decision`). -/
structure OracleResponse where
  decision : String
  priority : String
  confidence : ℚ
  explanation : String
deriving Repr, DecidableEq

/-- What `AIService.make_decision` returns. -/
structure MakeOut where
  db : DB
  ai_decision : AIDecision
  can_auto_execute : Bool
  requires_review : Bool
deriving Repr, DecidableEq

/-- `AIService.make_decision` (ai_service.py lines 25-166) with the
Oracle reply supplied as an argument: computes the governance flags,
persists the decision with `auto_executed = False`, and reports
auto-executability. -/
def make_decision (db : DB) (resp : OracleResponse) (machine_id : Nat) :
    Except String MakeOut :=
  match find_machine db machine_id with
  | none => .error "machine not found"
  | some _m =>
    let requires_review : Bool := resp.confidence < CONFIDENCE_THRESHOLD
    let d : AIDecision := {
      id := next_decision_id db
      machine_id := machine_id
      decision := resp.decision
      priority := resp.priority
      confidence := resp.confidence
      explanation := resp.explanation
      auto_executed := false
      requires_review := requires_review }
    let can_auto_execute : Bool :=
      !requires_review && decide (CONFIDENCE_THRESHOLD ≤ resp.confidence)
    .ok {
      db := { db with ai_decisions := db.ai_decisions ++ [d] }
      ai_decision := d
      can_auto_execute := can_auto_execute
      requires_review := requires_review }

/-- The result dict of `AIService.execute_decision` and its dispatch
helpers. -/
inductive ExecResult
  | already_executed (ai_decision_id : Nat)
  | work_order_created (work_order_id : Nat) (wo_number : String)
  | notified (email_sent : Bool) (wo_number : String)
  | wait
  | error_machine_not_found
  | error_no_work_order
  | empty
deriving Repr, DecidableEq

/-- `ValueError`s raised by `AIService.execute_decision`. -/
inductive ExecErr
  | decision_not_found (ai_decision_id : Nat)
  | review_required (ai_decision_id : Nat)
deriving Repr, DecidableEq

/-- An execution outcome: the new state, the result dict, and the e-mails
dispatched on the way. -/
structure ExecOut where
  db : DB
  result : ExecResult
  notices : List Notice
deriving Repr, DecidableEq

/-- `AIService._create_work_order_from_decision` (ai_service.py lines
228-256). -/
def create_work_order_from_decision (db : DB) (year : Nat) (d : AIDecision) :
    DB × ExecResult × List Notice :=
  let wo_data : WorkOrderCreate := {
    machine_id := d.machine_id
    creation_source := "AI"
    ai_decision_id := some d.id
    priority := d.priority
    status := "Pending_Approval"
    notes := some ("AI-generated work order. " ++ d.explanation)
    scheduled_date := none }
  let created := create_work_order db year wo_data
  (created.1, .work_order_created created.2.id created.2.wo_number, [])

/-- The work-order lookup of `AIService._send_notification_from_decision`:
the machine's Approved order first, else any Pending_Approval/Draft
order. -/
def located_work_order (db : DB) (machine_id : Nat) : Option WorkOrder :=
  match db.work_orders.find? (fun w => w.machine_id == machine_id && w.status == "Approved") with
  | some w => some w
  | none =>
    db.work_orders.find? (fun w =>
      w.machine_id == machine_id && (w.status == "Pending_Approval" || w.status == "Draft"))

/-- `AIService._send_notification_from_decision` (ai_service.py lines
258-335): locate the work order, choose the template by its status,
send, and mark `notification_sent` on success. -/
def send_notification_from_decision (db : DB) (smtp_ok : Bool) (d : AIDecision) :
    DB × ExecResult × List Notice :=
  match find_machine db d.machine_id with
  | none => (db, .error_machine_not_found, [])
  | some m =>
    match located_work_order db d.machine_id with
    | none => (db, .error_no_work_order, [])
    | some wo =>
      let ai_context : AiContext := {
        explanation := some d.explanation
        confidence := some d.confidence }
      let outcome : Bool × Template × Option AiContext :=
        if wo.status == "Approved" then
          (send_approval_notification smtp_ok m, Template.approval, none)
        else
          (send_work_order_notification smtp_ok m, Template.workOrder, some ai_context)
      let db1 := if outcome.1 then mark_notification_sent db wo.id else db
      (db1, .notified outcome.1 wo.wo_number,
        [{ template := outcome.2.1
           machine_id := m.id
           work_order_id := wo.id
           ai_context := outcome.2.2
           email_sent := outcome.1 }])

/-- `AIService.execute_decision` (ai_service.py lines 168-226): no-op when
already executed, gate on `requires_review` unless forced, dispatch by
decision type, then mark `auto_executed = True` unconditionally. -/
def execute_decision (db : DB) (year : Nat) (smtp_ok : Bool)
    (ai_decision_id : Nat) (force : Bool) : Except ExecErr ExecOut :=
  match find_decision db ai_decision_id with
  | none => .error (.decision_not_found ai_decision_id)
  | some d =>
    if d.auto_executed then
      .ok { db := db, result := .already_executed ai_decision_id, notices := [] }
    else if !force && d.requires_review then
      .error (.review_required ai_decision_id)
    else
      let step : DB × ExecResult × List Notice :=
        if d.decision == "CREATE_WORK_ORDER" then
          create_work_order_from_decision db year d
        else if d.decision == "SEND_NOTIFICATION" then
          send_notification_from_decision db smtp_ok d
        else if d.decision == "WAIT" then
          (db, .wait, [])
        else
          (db, .empty, [])
      .ok {
        db := set_decision_executed step.1 ai_decision_id
        result := step.2.1
        notices := step.2.2 }

/-- `workflow_logs` row (models/workflow_log.py). -/
structure WorkflowLog where
  id : Nat
  workflow_name : String
  execution_id : Option String
  status : Option String
  machines_processed : Nat
  work_orders_created : Nat
  notifications_sent : Nat
  errors : Option String
  execution_time_ms : Option Nat
  started_at : Int
  completed_at : Option Int
deriving Repr, DecidableEq

/-- `WorkflowLogCreate` schema (schemas/workflow_log.py): optional fields
default to `none`, counters default to 0. -/
structure WorkflowLogCreate where
  workflow_name : String
  execution_id : Option String
  status : Option String
  machines_processed : Nat
  work_orders_created : Nat
  notifications_sent : Nat
  errors : Option String
  execution_time_ms : Option Nat
  started_at : Option Int
  completed_at : Option Int
deriving Repr, DecidableEq

/-- `WorkflowLogService.get_workflow_log_by_execution_id`. -/
def find_log_by_execution_id (logs : List WorkflowLog) (eid : String) : Option WorkflowLog :=
  logs.find? (fun l => l.execution_id == some eid)

/-- Autoincrement primary key for a new workflow log. -/
def next_log_id (logs : List WorkflowLog) : Nat :=
  (logs.map (fun l => l.id)).foldl max 0 + 1

/-- `WorkflowLogService.create_workflow_log`: insert, defaulting
`started_at` to now when omitted. -/
def create_workflow_log (logs : List WorkflowLog) (log_data : WorkflowLogCreate) (now : Int) :
    List WorkflowLog × WorkflowLog :=
  let log : WorkflowLog := {
    id := next_log_id logs
    workflow_name := log_data.workflow_name
    execution_id := log_data.execution_id
    status := log_data.status
    machines_processed := log_data.machines_processed
    work_orders_created := log_data.work_orders_created
    notifications_sent := log_data.notifications_sent
    errors := log_data.errors
    execution_time_ms := log_data.execution_time_ms
    started_at := match log_data.started_at with | some t => t | none => now
    completed_at := log_data.completed_at }
  (logs ++ [log], log)

/-- The `WorkflowLogUpdate(...)` built inside `upsert_workflow_log`: all
seven run-outcome fields are passed explicitly, so
`model_dump(exclude_unset=True)` in `update_workflow_log` keeps them all
and `setattr` overwrites each — including those the caller left at their
defaults. -/
def apply_upsert_update (l : WorkflowLog) (log_data : WorkflowLogCreate) : WorkflowLog :=
  { l with
    status := log_data.status
    machines_processed := log_data.machines_processed
    work_orders_created := log_data.work_orders_created
    notifications_sent := log_data.notifications_sent
    errors := log_data.errors
    execution_time_ms := log_data.execution_time_ms
    completed_at := log_data.completed_at }

/-- `WorkflowLogService.upsert_workflow_log` (workflow_log_service.py
lines 126-163).  The lookup is guarded by Python truthiness
(`if log_data.execution_id:`): both `None` and the empty string skip it,
so an empty `execution_id` always inserts. -/
def upsert_workflow_log (logs : List WorkflowLog) (log_data : WorkflowLogCreate) (now : Int) :
    List WorkflowLog × WorkflowLog :=
  let existing : Option WorkflowLog :=
    match log_data.execution_id with
    | some eid => if eid = "" then none else find_log_by_execution_id logs eid
    | none => none
  match existing with
  | some l =>
    ((logs.map (fun x => if x.id == l.id then apply_upsert_update x log_data else x)),
      apply_upsert_update l log_data)
  | none => create_workflow_log logs log_data now

/-- One attempt of the pattern `WO-\d{4}-\d{3,4}` (case-insensitive,
greedy on the final digit) at the head of a character list, returning the
matched characters. -/
def match_wo_at (cs : List Char) : Option (List Char) :=
  match cs with
  | w :: o :: h1 :: a :: b :: c :: d :: h2 :: x :: y :: z :: rest =>
    if (w == 'W' || w == 'w') && (o == 'O' || o == 'o') && h1 == '-' &&
        a.isDigit && b.isDigit && c.isDigit && d.isDigit && h2 == '-' &&
        x.isDigit && y.isDigit && z.isDigit then
      match rest with
      | t :: _ =>
        if t.isDigit then some [w, o, h1, a, b, c, d, h2, x, y, z, t]
        else some [w, o, h1, a, b, c, d, h2, x, y, z]
      | [] => some [w, o, h1, a, b, c, d, h2, x, y, z]
    else none
  | _ => none

/-- `re.search`: the leftmost match of the pattern. -/
def search_wo : List Char → Option (List Char)
  | [] => none
  | c :: rest =>
    match match_wo_at (c :: rest) with
    | some m => some m
    | none => search_wo rest

/-- `extract_wo_number_from_subject` (workflow_webhooks.py lines 18-34):
leftmost `WO-\d{4}-\d{3,4}` match, upper-cased. -/
def extract_wo_number_from_subject (subject : String) : Option String :=
  (search_wo subject.data).map (fun m => String.mk (m.map Char.toUpper))

/-- Day count of a Gregorian date (proleptic, year ≥ 1), used as the day
number `datetime.date` values are modelled by. -/
def rata_die (y m d : Nat) : Int :=
  let y1 := if m ≤ 2 then y - 1 else y
  let mp := if m ≤ 2 then m + 9 else m - 3
  let era := y1 / 400
  let yoe := y1 % 400
  let doy := (153 * mp + 2) / 5 + (d - 1)
  let doe := yoe * 365 + yoe / 4 - yoe / 100 + doy
  ((era * 146097 + doe : Nat) : Int)

/-- Gregorian month length. -/
def days_in_month (y m : Nat) : Nat :=
  if m = 2 then (if (y % 4 = 0 ∧ y % 100 ≠ 0) ∨ y % 400 = 0 then 29 else 28)
  else if m = 4 ∨ m = 6 ∨ m = 9 ∨ m = 11 then 30 else 31

/-- The numeric value of a digit character. -/
def digit_val (c : Char) : Nat := c.toNat - 48

/-- `datetime.fromisoformat(s).date()` restricted to the canonical
`YYYY-MM-DD` date form, `ValueError` as `none`. -/
def parse_iso_date (s : String) : Option Int :=
  match s.data with
  | [y1, y2, y3, y4, h1, m1, m2, h2, d1, d2] =>
    if y1.isDigit && y2.isDigit && y3.isDigit && y4.isDigit && h1 == '-' &&
        m1.isDigit && m2.isDigit && h2 == '-' && d1.isDigit && d2.isDigit then
      let y := ((digit_val y1 * 10 + digit_val y2) * 10 + digit_val y3) * 10 + digit_val y4
      let mo := digit_val m1 * 10 + digit_val m2
      let dd := digit_val d1 * 10 + digit_val d2
      if 1 ≤ mo ∧ mo ≤ 12 ∧ 1 ≤ dd ∧ dd ≤ days_in_month y mo ∧ 1 ≤ y then
        some (rata_die y mo dd)
      else none
    else none
  | _ => none

/-- `validate_scheduled_date` (workflow_webhooks.py lines 37-58): parse,
then reject dates strictly before today. -/
def validate_scheduled_date (date_str : String) (today : Int) : Except String Int :=
  match parse_iso_date date_str with
  | none => .error "Invalid date format"
  | some p =>
    if p < today then .error "Date is in the past"
    else .ok p

/-- The Date-Extraction Oracle reply
(`DateExtractionService.extract_date_from_email`) for the processed
body. -/
structure ExtractionReply where
  selected_date : Option String
  confidence : ℚ
  explanation : String
deriving Repr, DecidableEq

/-- `EmailDateExtractionResponse` (schemas/workflow.py): `status` plus
diagnostic fields, all defaulting to none/false. -/
structure PipelineResponse where
  status : String
  wo_number : Option String
  wo_id : Option Nat
  extracted_date : Option Int
  confidence : Option ℚ
  message : String
  updated : Bool
deriving Repr, DecidableEq

/-- Outcome of one webhook call: the new state, the response, and how
often the Date-Extraction Oracle was invoked while processing it. -/
structure PipelineOut where
  db : DB
  response : PipelineResponse
  oracle_calls : Nat
deriving Repr, DecidableEq

/-- An `EmailDateExtractionResponse` with `status="Error"` and the given
diagnostics (remaining fields at their schema defaults). -/
def mk_pipeline_error (wo_number : Option String) (wo_id : Option Nat)
    (confidence : Option ℚ) (message : String) : PipelineResponse :=
  { status := "Error"
    wo_number := wo_number
    wo_id := wo_id
    extracted_date := none
    confidence := confidence
    message := message
    updated := false }

/-- `extract_date_from_email` webhook handler (workflow_webhooks.py lines
61-197): the linear early-exit pipeline.  The Oracle reply for the body is
an argument; `oracle_calls` counts how often stage 4 ran.  Messages are
modelled up to quoting. -/
def extract_date_from_email (db : DB) (today : Int) (subject : String)
    (oracle : ExtractionReply) : PipelineOut :=
  match extract_wo_number_from_subject subject with
  | none =>
    { db := db
      response := mk_pipeline_error none none none
        "No work order number found in email subject"
      oracle_calls := 0 }
  | some wo_number =>
    match find_wo_by_number db wo_number with
    | none =>
      { db := db
        response := mk_pipeline_error (some wo_number) none none
          ("Work order " ++ wo_number ++ " not found")
        oracle_calls := 0 }
    | some wo =>
      if wo.status ≠ "Approved" then
        { db := db
          response := mk_pipeline_error (some wo_number) (some wo.id) none
            ("Work order status is " ++ wo.status ++ ", must be Approved")
          oracle_calls := 0 }
      else
        -- stage 4: the Date-Extraction Oracle call happens here
        if oracle.confidence < 7/10 then
          { db := db
            response := mk_pipeline_error (some wo_number) (some wo.id)
              (some oracle.confidence) ("AI confidence too low. " ++ oracle.explanation)
            oracle_calls := 1 }
        else
          match oracle.selected_date with
          | none =>
            { db := db
              response := mk_pipeline_error (some wo_number) (some wo.id)
                (some oracle.confidence) "No date extracted from email"
              oracle_calls := 1 }
          | some date_str =>
            match validate_scheduled_date date_str today with
            | .error e =>
              { db := db
                response := mk_pipeline_error (some wo_number) (some wo.id)
                  (some oracle.confidence) e
                oracle_calls := 1 }
            | .ok parsed =>
              match find_work_order db wo.id with
              | none =>
                { db := db
                  response := mk_pipeline_error (some wo_number) (some wo.id) none
                    "Failed to update work order"
                  oracle_calls := 1 }
              | some wo2 =>
                { db := set_work_order db wo.id { wo2 with scheduled_date := some parsed }
                  response := {
                    status := "Success"
                    wo_number := some wo_number
                    wo_id := some wo.id
                    extracted_date := some parsed
                    confidence := some oracle.confidence
                    message := "Work order " ++ wo_number ++ " scheduled date updated"
                    updated := true }
                  oracle_calls := 1 }

/-- An already-executed decision for the C1 witness. -/
def wit_exec_decision : AIDecision :=
  { id := 1
    machine_id := 1
    decision := "CREATE_WORK_ORDER"
    priority := "High"
    confidence := 9/10
    explanation := "machine overdue for maintenance"
    auto_executed := true
    requires_review := false }

/-- A one-decision database for the C1 witness. -/
def wit_exec_db : DB :=
  { machines := []
    work_orders := []
    ai_decisions := [wit_exec_decision]
    maintenance_history := [] }

/-- Machine for the C3 witness. -/
def wit_gate_machine : Machine :=
  { id := 1
    machine_id := "M-001"
    name := "Pump"
    location := "Hall A"
    pm_frequency := "Monthly"
    last_pm_date := none
    next_pm_date := 100
    status := "Active"
    assigned_supplier := "Acme"
    supplier_email := some "supplier@acme.example" }

/-- Database for the C3 witness. -/
def wit_gate_db : DB :=
  { machines := [wit_gate_machine]
    work_orders := []
    ai_decisions := []
    maintenance_history := [] }

/-- A 0.65-confidence Oracle reply for the C3 witness. -/
def wit_gate_resp : OracleResponse :=
  { decision := "CREATE_WORK_ORDER"
    priority := "Medium"
    confidence := 65/100
    explanation := "maintenance is due within the detection window" }

/-- The decision `make_decision` stores for the C3 witness. -/
def wit_gate_decision : AIDecision :=
  { id := 1
    machine_id := 1
    decision := "CREATE_WORK_ORDER"
    priority := "Medium"
    confidence := 65/100
    explanation := "maintenance is due within the detection window"
    auto_executed := false
    requires_review := decide ((65 : ℚ)/100 < CONFIDENCE_THRESHOLD) }

/-- The `make_decision` output for the C3 witness. -/
def wit_gate_out : MakeOut :=
  { db := { wit_gate_db with ai_decisions := [wit_gate_decision] }
    ai_decision := wit_gate_decision
    can_auto_execute := !decide ((65 : ℚ)/100 < CONFIDENCE_THRESHOLD) &&
      decide (CONFIDENCE_THRESHOLD ≤ (65 : ℚ)/100)
    requires_review := decide ((65 : ℚ)/100 < CONFIDENCE_THRESHOLD) }

/-- Machine for the C4 example. -/
def c4_machine : Machine :=
  { id := 1
    machine_id := "M-002"
    name := "Conveyor"
    location := "Hall B"
    pm_frequency := "Monthly"
    last_pm_date := none
    next_pm_date := 50
    status := "Active"
    assigned_supplier := "Acme"
    supplier_email := some "supplier@acme.example" }

/-- A not-yet-executed SEND_NOTIFICATION decision for the C4 example. -/
def c4_decision : AIDecision :=
  { id := 1
    machine_id := 1
    decision := "SEND_NOTIFICATION"
    priority := "High"
    confidence := 9/10
    explanation := "an approved work order should be chased"
    auto_executed := false
    requires_review := false }

/-- Database for the C4 example: the machine has no work order at all. -/
def c4_db : DB :=
  { machines := [c4_machine]
    work_orders := []
    ai_decisions := [c4_decision]
    maintenance_history := [] }

/-- Machine for the C2 evaluation (the spec's Complete example). -/
def c2_machine : Machine :=
  { id := 1
    machine_id := "M-003"
    name := "Press"
    location := "Hall C"
    pm_frequency := "Monthly"
    last_pm_date := none
    next_pm_date := rata_die 2024 3 1
    status := "Active"
    assigned_supplier := "Acme"
    supplier_email := some "supplier@acme.example" }

/-- Approved work order scheduled for 2024-03-01. -/
def c2_wo : WorkOrder :=
  { id := 1
    wo_number := "WO-2024-0001"
    machine_id := 1
    status := "Approved"
    priority := "High"
    creation_source := "Manual"
    ai_decision_id := none
    scheduled_date := some (rata_die 2024 3 1)
    completed_date := none
    notes := none
    notification_sent := false }

/-- Database for the C2 evaluation. -/
def c2_db : DB :=
  { machines := [c2_machine]
    work_orders := [c2_wo]
    ai_decisions := []
    maintenance_history := [] }

/-- Draft work order for the C5 witness. -/
def c5_wo : WorkOrder :=
  { id := 1
    wo_number := "WO-2025-0001"
    machine_id := 1
    status := "Draft"
    priority := "Low"
    creation_source := "Manual"
    ai_decision_id := none
    scheduled_date := none
    completed_date := none
    notes := none
    notification_sent := false }

/-- Database for the C5 witness. -/
def c5_db : DB :=
  { machines := []
    work_orders := [c5_wo]
    ai_decisions := []
    maintenance_history := [] }

/-- A high-confidence Oracle reply that stage 3 must never see. -/
def c5_oracle : ExtractionReply :=
  { selected_date := some "2025-06-01"
    confidence := 95/100
    explanation := "a clear date was quoted" }

/-- Stored log for the C8 example: a failed run with recorded errors. -/
def c8_log : WorkflowLog :=
  { id := 1
    workflow_name := "pm_batch"
    execution_id := some "exec-1"
    status := some "Failed"
    machines_processed := 3
    work_orders_created := 1
    notifications_sent := 1
    errors := some "machine 7 failed"
    execution_time_ms := some 120
    started_at := 100
    completed_at := some 200 }

/-- An upsert call for the same execution id that provides only `status`
(every other run field left at its schema default). -/
def c8_call : WorkflowLogCreate :=
  { workflow_name := "pm_batch"
    execution_id := some "exec-1"
    status := some "Success"
    machines_processed := 0
    work_orders_created := 0
    notifications_sent := 0
    errors := none
    execution_time_ms := none
    started_at := none
    completed_at := none }

/-- Pending-approval work order for the C10 witness. -/
def c10_wo : WorkOrder :=
  { id := 1
    wo_number := "WO-2025-0004"
    machine_id := 1
    status := "Pending_Approval"
    priority := "Medium"
    creation_source := "AI"
    ai_decision_id := some 1
    scheduled_date := none
    completed_date := none
    notes := none
    notification_sent := false }

/-- Database for the C10 witness: no Approved order exists, only a
Pending_Approval one. -/
def c10_db : DB :=
  { machines := [c4_machine]
    work_orders := [c10_wo]
    ai_decisions := [c4_decision]
    maintenance_history := [] }

end DysonPM
namespace DysonPM

theorem dchar_facts : ∀ d < 10, (dchar d).toNat = 48 + d ∧ (dchar d).isDigit = true ∧ dchar d ≠ '-' := by decide

theorem data_append (s t : String) : (s ++ t).data = s.data ++ t.data := rfl

theorem chars_lt_append (p a b : List Char) :
    chars_lt (p ++ a) (p ++ b) = chars_lt a b := by
  induction p with
  | nil => rfl
  | cons c p ih => simp [chars_lt, ih]

theorem quad_lt_iff (k l : Nat) (hk : k < 10000) (hl : l < 10000) :
    (str_lt (quad k) (quad l) = true) ↔ k < l := by
  have h1 := (dchar_facts (k / 1000) (by omega)).1
  have h2 := (dchar_facts (k / 100 % 10) (by omega)).1
  have h3 := (dchar_facts (k / 10 % 10) (by omega)).1
  have h4 := (dchar_facts (k % 10) (by omega)).1
  have h5 := (dchar_facts (l / 1000) (by omega)).1
  have h6 := (dchar_facts (l / 100 % 10) (by omega)).1
  have h7 := (dchar_facts (l / 10 % 10) (by omega)).1
  have h8 := (dchar_facts (l % 10) (by omega)).1
  simp only [str_lt, quad, chars_lt, h1, h2, h3, h4, h5, h6, h7, h8]
  split_ifs <;> simp <;> omega

theorem canonical_lt_iff (year k l : Nat) (hk : k < 10000) (hl : l < 10000) :
    (str_lt (canonical_wo year k) (canonical_wo year l) = true) ↔ k < l := by
  have : str_lt (canonical_wo year k) (canonical_wo year l) = str_lt (quad k) (quad l) := by
    simp only [str_lt, canonical_wo, data_append, chars_lt_append]
  rw [this]
  exact quad_lt_iff k l hk hl

theorem pick_latest_canonical (year a k : Nat) (ha : a < 10000) (hk : k < 10000) :
    pick_latest (some (canonical_wo year a)) (canonical_wo year k) =
      some (canonical_wo year (max a k)) := by
  have hstep : pick_latest (some (canonical_wo year a)) (canonical_wo year k) =
      if str_lt (canonical_wo year a) (canonical_wo year k) then
        some (canonical_wo year k)
      else some (canonical_wo year a) := rfl
  rw [hstep]
  by_cases h : a < k
  · rw [if_pos ((canonical_lt_iff year a k ha hk).mpr h), Nat.max_eq_right (Nat.le_of_lt h)]
  · have hfalse : ¬ (str_lt (canonical_wo year a) (canonical_wo year k) = true) := by
      intro hc
      exact h ((canonical_lt_iff year a k ha hk).mp hc)
    rw [if_neg hfalse, Nat.max_eq_left (Nat.le_of_not_lt h)]

theorem foldl_pick_canonical (year : Nat) (ks : List Nat) (a : Nat) (ha : a < 10000)
    (hks : ∀ k ∈ ks, k < 10000) :
    (ks.map (canonical_wo year)).foldl pick_latest (some (canonical_wo year a)) =
      some (canonical_wo year (ks.foldl max a)) := by
  induction ks generalizing a with
  | nil => rfl
  | cons k ks ih =>
    have hk : k < 10000 := hks k (by simp)
    rw [List.map_cons, List.foldl_cons, List.foldl_cons,
      pick_latest_canonical year a k ha hk]
    exact ih (max a k) (by omega) (fun x hx => hks x (by simp [hx]))

theorem latest_wo_number_canonical (year : Nat) (stored : List String) (ks : List Nat)
    (hfilter : stored.filter (fun s => starts_with s (wo_year_pfx year)) =
      ks.map (canonical_wo year))
    (hks : ∀ k ∈ ks, k < 10000) :
    latest_wo_number stored (wo_year_pfx year) = (max_head ks).map (canonical_wo year) := by
  unfold latest_wo_number
  rw [hfilter]
  cases ks with
  | nil => rfl
  | cons k tl =>
    rw [List.map_cons, List.foldl_cons]
    show (tl.map (canonical_wo year)).foldl pick_latest (some (canonical_wo year k)) = _
    rw [foldl_pick_canonical year tl k (hks k (by simp)) (fun x hx => hks x (by simp [hx]))]
    rfl

theorem quad_chars_not_dash (n : Nat) (hn : n < 10000) :
    ∀ c ∈ (quad n).data, (c != '-') = true := by
  intro c hc
  have h1 := (dchar_facts (n / 1000) (by omega)).2.2
  have h2 := (dchar_facts (n / 100 % 10) (by omega)).2.2
  have h3 := (dchar_facts (n / 10 % 10) (by omega)).2.2
  have h4 := (dchar_facts (n % 10) (by omega)).2.2
  have hc2 : c ∈ [dchar (n / 1000), dchar (n / 100 % 10), dchar (n / 10 % 10), dchar (n % 10)] := hc
  simp only [List.mem_cons, List.not_mem_nil, or_false] at hc2
  rcases hc2 with hc2 | hc2 | hc2 | hc2 <;> subst hc2 <;> simp_all [bne_iff_ne]

theorem takeWhile_before_dash (xs rest : List Char) (hxs : ∀ c ∈ xs, (c != '-') = true) :
    (xs ++ '-' :: rest).takeWhile (fun c => c != '-') = xs := by
  induction xs with
  | nil => simp [List.takeWhile]
  | cons x xs ih =>
    have hx := hxs x (by simp)
    simp only [List.cons_append, List.takeWhile_cons, hx, if_true]
    rw [ih (fun c hc => hxs c (by simp [hc]))]

theorem wo_year_pfx_data (year : Nat) :
    (wo_year_pfx year).data = ('W' :: 'O' :: '-' :: (toString year).data) ++ ['-'] := by
  simp [wo_year_pfx, data_append]

theorem after_last_dash_canonical (year m : Nat) (hm : m < 10000) :
    after_last_dash (canonical_wo year m) = quad m := by
  unfold after_last_dash canonical_wo
  rw [data_append, wo_year_pfx_data]
  have : (('W' :: 'O' :: '-' :: (toString year).data) ++ ['-'] ++ (quad m).data).reverse =
      (quad m).data.reverse ++ '-' :: ('W' :: 'O' :: '-' :: (toString year).data).reverse := by
    simp
  rw [this, takeWhile_before_dash _ _ (fun c hc => quad_chars_not_dash m hm c (by simpa using hc))]
  simp [quad]

theorem parse_seq_quad (m : Nat) (hm : m < 10000) :
    parse_seq (quad m) = some m := by
  have h1 := dchar_facts (m / 1000) (by omega)
  have h2 := dchar_facts (m / 100 % 10) (by omega)
  have h3 := dchar_facts (m / 10 % 10) (by omega)
  have h4 := dchar_facts (m % 10) (by omega)
  unfold parse_seq
  rw [if_pos]
  · simp only [quad, List.foldl]
    congr 1
    rw [h1.1, h2.1, h3.1, h4.1]
    omega
  · constructor
    · simp [quad]
    · simp [quad, List.all, h1.2.1, h2.2.1, h3.2.1, h4.2.1]

theorem foldl_max_lt (b : Nat) (tl : List Nat) (a : Nat) (ha : a < b) (h : ∀ k ∈ tl, k < b) :
    tl.foldl max a < b := by
  induction tl generalizing a with
  | nil => exact ha
  | cons k tl ih =>
    have := h k (by simp)
    exact ih (max a k) (by omega) (fun x hx => h x (by simp [hx]))

/-- C6 (amended): the next number is `WO-{year}-{seq:04d}` where `seq` is
one plus the sequence parsed from the lexicographically greatest stored
number with that year's marker.  When every stored number for the year is
canonical (4-digit zero-padded sequence below 9999) this equals one plus
the highest existing sequence for that year — 1 when none exists —
independent of any other year's numbers; a malformed greatest stored
number falls back to sequence 1 rather than failing. -/
theorem generate_wo_number_spec (year : Nat) (stored : List String) :
    (∀ ks : List Nat,
      stored.filter (fun s => starts_with s (wo_year_pfx year)) = ks.map (canonical_wo year) →
      (∀ k ∈ ks, k < 9999) →
      generate_wo_number year stored =
        wo_year_pfx year ++ pad4 ((max_head ks).getD 0 + 1)) ∧
    (∀ w, latest_wo_number stored (wo_year_pfx year) = some w →
      parse_seq (after_last_dash w) = none →
      generate_wo_number year stored = wo_year_pfx year ++ pad4 1) := by
  constructor
  · intro ks hfilter hks
    have hks' : ∀ k ∈ ks, k < 10000 := fun k hk => Nat.lt_trans (hks k hk) (by norm_num)
    unfold generate_wo_number
    dsimp only
    rw [latest_wo_number_canonical year stored ks hfilter hks']
    cases ks with
    | nil => rfl
    | cons k tl =>
      have hmax : tl.foldl max k < 10000 :=
        foldl_max_lt 10000 tl k (hks' k (by simp)) (fun x hx => hks' x (by simp [hx]))
      show wo_year_pfx year ++
          pad4 (match (max_head (k :: tl)).map (canonical_wo year) with
            | some wo_num =>
              match parse_seq (after_last_dash wo_num) with
              | some n => n + 1
              | none => 1
            | none => 1) = _
      simp only [max_head, Option.map_some', Option.getD_some]
      rw [after_last_dash_canonical year _ hmax, parse_seq_quad _ hmax]
  · intro w hw hp
    unfold generate_wo_number
    dsimp only
    rw [hw]
    show wo_year_pfx year ++
        pad4 (match parse_seq (after_last_dash w) with | some n => n + 1 | none => 1) =
      wo_year_pfx year ++ pad4 1
    rw [hp]

/-- C6 witness: with `WO-2025-0007` (and a 2024 number) stored, the next
generated number has sequence 8. -/
theorem generate_wo_number_spec_witness :
    generate_wo_number 2025 ["WO-2025-0007", "WO-2024-0003"] = wo_year_pfx 2025 ++ pad4 8 :=
  (generate_wo_number_spec 2025 ["WO-2025-0007", "WO-2024-0003"]).1 [7] (by decide) (by decide)

/-- C9: the urgency classifier returns `overdue` iff `daysUntil < 0`,
`due_soon` iff `0 ≤ daysUntil ≤ 30`, and `ok` iff `daysUntil > 30`, as a
total function of `(nextPmDate, today)`. -/
theorem pm_status_classification (next_pm_date today : Int) :
    (calculate_pm_status next_pm_date today = "overdue" ↔ next_pm_date - today < 0) ∧
    (calculate_pm_status next_pm_date today = "due_soon" ↔
      0 ≤ next_pm_date - today ∧ next_pm_date - today ≤ 30) ∧
    (calculate_pm_status next_pm_date today = "ok" ↔ 30 < next_pm_date - today) := by
  unfold calculate_pm_status
  by_cases h1 : next_pm_date - today < 0 <;> by_cases h2 : next_pm_date - today ≤ 30 <;>
    simp [h1, h2] <;> omega

/-- C7 counterexample: `"Quarterly"` lies outside {Monthly, Bimonthly,
Yearly} yet the next-PM-date computation adds 90 days, not 30 — the
source table has a fourth entry `"Quarterly": 90`. -/
theorem frequency_quarterly_counterexample :
    "Quarterly" ≠ "Monthly" ∧ "Quarterly" ≠ "Bimonthly" ∧ "Quarterly" ≠ "Yearly" ∧
    calculate_next_pm_date 0 "Quarterly" ≠ 0 + 30 := by decide

/-- C7 (amended): the computation adds 30 days for Monthly, 60 for
Bimonthly, 90 for Quarterly, 365 for Yearly, and 30 for every string
outside these four. -/
theorem frequency_mapping (from_date : Int) (f : String) :
    calculate_next_pm_date from_date "Monthly" = from_date + 30 ∧
    calculate_next_pm_date from_date "Bimonthly" = from_date + 60 ∧
    calculate_next_pm_date from_date "Quarterly" = from_date + 90 ∧
    calculate_next_pm_date from_date "Yearly" = from_date + 365 ∧
    (f ≠ "Monthly" → f ≠ "Bimonthly" → f ≠ "Quarterly" → f ≠ "Yearly" →
      calculate_next_pm_date from_date f = from_date + 30) := by
  unfold calculate_next_pm_date frequency_days
  refine ⟨by simp, by simp, by simp, by simp, ?_⟩
  intro h1 h2 h3 h4
  simp [h1, h2, h3, h4]

/-- C7 witness: the unmapped frequency `"Weekly"` falls back to 30 days. -/
theorem frequency_mapping_witness :
    calculate_next_pm_date 0 "Weekly" = 0 + 30 :=
  (frequency_mapping 0 "Weekly").2.2.2.2 (by decide) (by decide) (by decide) (by decide)

/-- C6 counterexample: with `WO-2025-0002` and `WO-2025-001` stored, the
highest existing 2025 sequence is 2, so the claimed next number is
`WO-2025-0003`; the code instead takes the lexicographically greatest
stored number (`WO-2025-001`, sequence 1) and regenerates the duplicate
`WO-2025-0002`. -/
theorem generate_wo_number_counterexample :
    generate_wo_number 2025 ["WO-2025-0002", "WO-2025-001"] = "WO-2025-0002" ∧
    "WO-2025-0002" ≠ "WO-2025-0003" ∧
    "WO-2025-0002" ∈ ["WO-2025-0002", "WO-2025-001"] := by decide

theorem find?_map_update {α : Type} (key : α → Nat) (f : α → α) (l : List α) (id : Nat)
    (d : α) (hf : key (f d) = key d)
    (h : l.find? (fun x => key x == id) = some d) :
    (l.map (fun x => if key x == id then f x else x)).find? (fun x => key x == id) =
      some (f d) := by
  induction l with
  | nil => simp at h
  | cons a tl ih =>
    by_cases hk : key a == id
    · have hd : a = d := by
        simp only [List.find?, hk] at h
        exact Option.some.inj h
      subst hd
      have hid : key a = id := by
        simpa using hk
      simp only [List.map_cons, hk, if_true, List.find?]
      have hbeq : (key (f a) == id) = true := by
        rw [hf, hid]
        simp
      simp [hbeq]
    · have hkf : (key a == id) = false := by
        exact Bool.eq_false_iff.mpr hk
      simp only [List.find?, hkf] at h
      simp only [List.map_cons, hkf, Bool.false_eq_true, if_false, List.find?]
      exact ih h

theorem create_step_preserves_decisions (db : DB) (year : Nat) (d : AIDecision) :
    (create_work_order_from_decision db year d).1.ai_decisions = db.ai_decisions := rfl

theorem send_step_preserves_decisions (db : DB) (smtp_ok : Bool) (d : AIDecision) :
    (send_notification_from_decision db smtp_ok d).1.ai_decisions = db.ai_decisions := by
  unfold send_notification_from_decision
  cases hm : find_machine db d.machine_id with
  | none => rfl
  | some m =>
    cases hwo : located_work_order db d.machine_id with
    | none => rfl
    | some wo =>
      dsimp only
      split <;> split <;> rfl

theorem exec_step_preserves_decisions (db : DB) (year : Nat) (smtp_ok : Bool)
    (d : AIDecision) :
    (if d.decision == "CREATE_WORK_ORDER" then create_work_order_from_decision db year d
     else if d.decision == "SEND_NOTIFICATION" then send_notification_from_decision db smtp_ok d
     else if d.decision == "WAIT" then (db, ExecResult.wait, ([] : List Notice))
     else (db, ExecResult.empty, ([] : List Notice))).1.ai_decisions = db.ai_decisions := by
  split
  · exact create_step_preserves_decisions db year d
  · split
    · exact send_step_preserves_decisions db smtp_ok d
    · split <;> rfl

/-- C1: executing an already-executed decision is a no-op (state
unchanged, so no work order and no e-mail), and a non-no-op successful
execution flips `auto_executed` from false to true, leaving the other
decision fields intact. -/
theorem execute_decision_at_most_once
    (db : DB) (year : Nat) (smtp_ok : Bool) (id : Nat) (force : Bool) (d : AIDecision)
    (hfind : find_decision db id = some d) :
    (d.auto_executed = true →
      execute_decision db year smtp_ok id force =
        .ok { db := db, result := .already_executed id, notices := [] }) ∧
    (∀ out, execute_decision db year smtp_ok id force = Except.ok out →
      out.result ≠ .already_executed id →
      d.auto_executed = false ∧
      find_decision out.db id = some { d with auto_executed := true }) := by
  constructor
  · intro h
    unfold execute_decision
    rw [hfind]
    simp [h]
  · intro out hout hres
    unfold execute_decision at hout
    rw [hfind] at hout
    by_cases hexec : d.auto_executed
    · exfalso
      simp [hexec] at hout
      apply hres
      rw [← hout]
    · refine ⟨by simpa using hexec, ?_⟩
      simp only [hexec, Bool.false_eq_true, if_false] at hout
      by_cases hrev : (!force && d.requires_review) = true
      · simp [hrev] at hout
      · rw [Bool.not_eq_true] at hrev
        simp only [hrev, Bool.false_eq_true, if_false, Except.ok.injEq] at hout
        subst hout
        show find_decision (set_decision_executed _ id) id = _
        unfold find_decision set_decision_executed
        dsimp only
        have hpres := exec_step_preserves_decisions db year smtp_ok d
        rw [hpres]
        have hid : ({ d with auto_executed := true } : AIDecision).id = d.id := rfl
        have hfind2 : db.ai_decisions.find? (fun x => x.id == id) = some d := hfind
        exact find?_map_update (fun x => x.id) (fun x => { x with auto_executed := true })
          db.ai_decisions id d hid hfind2

/-- C1 witness: re-executing the executed decision of `wit_exec_db` is a
no-op. -/
theorem execute_decision_at_most_once_witness :
    execute_decision wit_exec_db 2025 true 1 false =
      .ok { db := wit_exec_db, result := .already_executed 1, notices := [] } :=
  (execute_decision_at_most_once wit_exec_db 2025 true 1 false wit_exec_decision rfl).1 rfl

theorem le_foldl_max (l : List Nat) (a : Nat) :
    a ≤ l.foldl max a ∧ ∀ x ∈ l, x ≤ l.foldl max a := by
  induction l generalizing a with
  | nil => exact ⟨Nat.le_refl a, by simp⟩
  | cons b tl ih =>
    have h := ih (max a b)
    refine ⟨Nat.le_trans (Nat.le_max_left a b) h.1, ?_⟩
    intro x hx
    rcases List.mem_cons.mp hx with hx | hx
    · subst hx
      exact Nat.le_trans (Nat.le_max_right a x) h.1
    · exact h.2 x hx

theorem find?_append_fresh (l : List AIDecision) (d : AIDecision)
    (hfresh : ∀ x ∈ l, x.id ≠ d.id) :
    (l ++ [d]).find? (fun x => x.id == d.id) = some d := by
  induction l with
  | nil => simp [List.find?]
  | cons a tl ih =>
    have ha : (a.id == d.id) = false := by
      simpa using hfresh a (by simp)
    simp only [List.cons_append, List.find?, ha]
    exact ih (fun x hx => hfresh x (by simp [hx]))

theorem find_decision_after_make (db : DB) (resp : OracleResponse) (machine_id : Nat)
    (out : MakeOut) (hmk : make_decision db resp machine_id = .ok out) :
    find_decision out.db out.ai_decision.id = some out.ai_decision := by
  unfold make_decision at hmk
  cases hm : find_machine db machine_id with
  | none => rw [hm] at hmk; exact absurd hmk (by simp)
  | some m =>
    rw [hm] at hmk
    simp only [Except.ok.injEq] at hmk
    subst hmk
    dsimp only
    show (db.ai_decisions ++ [_]).find? _ = _
    refine find?_append_fresh db.ai_decisions
      ⟨next_decision_id db, machine_id, resp.decision, resp.priority, resp.confidence,
        resp.explanation, false, decide (resp.confidence < CONFIDENCE_THRESHOLD)⟩ ?_
    intro x hx
    have hle : x.id ≤ (db.ai_decisions.map (fun d => d.id)).foldl max 0 :=
      (le_foldl_max (db.ai_decisions.map (fun d => d.id)) 0).2 x.id
        (List.mem_map.mpr ⟨x, hx, rfl⟩)
    show x.id ≠ next_decision_id db
    unfold next_decision_id
    omega

/-- C3: the stored decision's `requiresReview` flag is set iff the Oracle
confidence is below `CONFIDENCE_THRESHOLD`, and executing a
review-required decision fails with `ReviewRequired` unless forced, while
`force=true` proceeds to execute. -/
theorem confidence_gating (db : DB) (resp : OracleResponse) (machine_id year : Nat)
    (smtp_ok : Bool) (out : MakeOut)
    (hmk : make_decision db resp machine_id = .ok out) :
    ((out.ai_decision.requires_review = true) ↔ resp.confidence < CONFIDENCE_THRESHOLD) ∧
    (out.ai_decision.requires_review = true →
      execute_decision out.db year smtp_ok out.ai_decision.id false =
        .error (.review_required out.ai_decision.id) ∧
      ∃ r, execute_decision out.db year smtp_ok out.ai_decision.id true = Except.ok r) := by
  have hfd := find_decision_after_make db resp machine_id out hmk
  unfold make_decision at hmk
  cases hm : find_machine db machine_id with
  | none => rw [hm] at hmk; exact absurd hmk (by simp)
  | some m =>
    rw [hm] at hmk
    simp only [Except.ok.injEq] at hmk
    subst hmk
    dsimp only at hfd ⊢
    constructor
    · simp
    · intro hrev
      constructor
      · unfold execute_decision
        rw [hfd]
        simp [hrev]
      · unfold execute_decision
        rw [hfd]
        simp only [Bool.not_true, Bool.false_and, Bool.false_eq_true, if_false]
        exact ⟨_, rfl⟩

/-- C3 witness: the gating theorem applied to the 0.65-confidence
decision of `wit_gate_db`. -/
theorem confidence_gating_witness :
    ((wit_gate_out.ai_decision.requires_review = true) ↔
      wit_gate_resp.confidence < CONFIDENCE_THRESHOLD) ∧
    (wit_gate_out.ai_decision.requires_review = true →
      execute_decision wit_gate_out.db 2025 true wit_gate_out.ai_decision.id false =
        .error (.review_required wit_gate_out.ai_decision.id) ∧
      ∃ r, execute_decision wit_gate_out.db 2025 true wit_gate_out.ai_decision.id true =
        Except.ok r) :=
  confidence_gating wit_gate_db wit_gate_resp 1 2025 true wit_gate_out rfl

/-- C4 (amended): executing a SEND_NOTIFICATION decision for a machine
with no Draft/Pending_Approval/Approved work order yields the
NoWorkOrder error result — but `execute_decision` still marks the
decision `auto_executed = true` before returning. -/
theorem execute_send_notification_no_work_order
    (db : DB) (year : Nat) (smtp_ok : Bool) (id : Nat) (force : Bool)
    (d : AIDecision) (m : Machine)
    (hfind : find_decision db id = some d)
    (hdec : d.decision = "SEND_NOTIFICATION")
    (hexec : d.auto_executed = false)
    (hgate : (!force && d.requires_review) = false)
    (hm : find_machine db d.machine_id = some m)
    (hnowo : ∀ w ∈ db.work_orders, w.machine_id = d.machine_id →
      w.status ≠ "Approved" ∧ w.status ≠ "Pending_Approval" ∧ w.status ≠ "Draft") :
    execute_decision db year smtp_ok id force =
      .ok { db := set_decision_executed db id
            result := .error_no_work_order
            notices := [] } ∧
    find_decision (set_decision_executed db id) id =
      some { d with auto_executed := true } := by
  have hloc : located_work_order db d.machine_id = none := by
    unfold located_work_order
    have h1 : db.work_orders.find?
        (fun w => w.machine_id == d.machine_id && w.status == "Approved") = none := by
      rw [List.find?_eq_none]
      intro w hw
      by_cases hmach : w.machine_id = d.machine_id
      · have := (hnowo w hw hmach).1
        simp [hmach, this]
      · simp [hmach]
    rw [h1]
    rw [List.find?_eq_none]
    intro w hw
    by_cases hmach : w.machine_id = d.machine_id
    · have h2 := (hnowo w hw hmach).2.1
      have h3 := (hnowo w hw hmach).2.2
      simp [hmach, h2, h3]
    · simp [hmach]
  have hsend : send_notification_from_decision db smtp_ok d =
      (db, .error_no_work_order, []) := by
    unfold send_notification_from_decision
    rw [hm, hloc]
  constructor
  · unfold execute_decision
    rw [hfind]
    simp only [hexec, Bool.false_eq_true, if_false, hgate]
    simp only [hdec, hsend]
    rfl
  · have hid : ({ d with auto_executed := true } : AIDecision).id = d.id := rfl
    have hfind2 : db.ai_decisions.find? (fun x => x.id == id) = some d := hfind
    exact find?_map_update (fun x => x.id) (fun x => { x with auto_executed := true })
      db.ai_decisions id d hid hfind2

/-- C4 counterexample: on `c4_db` the SEND_NOTIFICATION execution returns
the NoWorkOrder error result, yet the stored decision ends with
`auto_executed = true`, contradicting the claim that the flag is not set
on this branch. -/
theorem execute_no_work_order_counterexample :
    execute_decision c4_db 2025 true 1 false =
      .ok { db := set_decision_executed c4_db 1
            result := .error_no_work_order
            notices := [] } ∧
    (find_decision (set_decision_executed c4_db 1) 1).map (fun d => d.auto_executed) =
      some true :=
  ⟨rfl, rfl⟩

/-- C4 witness: the amended theorem applied to `c4_db`. -/
theorem execute_send_notification_no_work_order_witness :
    execute_decision c4_db 2025 true 1 false =
      .ok { db := set_decision_executed c4_db 1
            result := .error_no_work_order
            notices := [] } ∧
    find_decision (set_decision_executed c4_db 1) 1 =
      some { c4_decision with auto_executed := true } :=
  execute_send_notification_no_work_order c4_db 2025 true 1 false c4_decision c4_machine
    rfl rfl rfl rfl rfl (by simp [c4_db])

/-- C2 evaluation at the failing input: completing the Approved order on
2024-03-10 with caller-supplied `completedDate = 2024-03-05` leaves
`machine.lastPmDate = 2024-03-10` (today) and
`workOrder.completedDate = 2024-03-10`, not the supplied 2024-03-05; the
schedule rollover (`nextPmDate = scheduledDate + 30 = 2024-03-31`) and the
single new MaintenanceHistory row do match the claim. -/
theorem complete_work_order_divergence :
    (complete_work_order_route c2_db 1 (rata_die 2024 3 5) (rata_die 2024 3 10) true).map
        (fun r => ((find_machine r.1 1).map (fun m => (m.last_pm_date, m.next_pm_date)),
          r.2.completed_date, r.1.maintenance_history.length)) =
      .ok (some (some (rata_die 2024 3 10), rata_die 2024 3 31),
        some (rata_die 2024 3 10), 1) ∧
    rata_die 2024 3 10 ≠ rata_die 2024 3 5 := by
  refine ⟨rfl, by decide⟩

/-- C5: when the subject resolves to an existing work order whose status
is not Approved, the pipeline stops at stage 3 with a status=Error result
naming the current status, the state is untouched, and the
Date-Extraction Oracle is never invoked. -/
theorem pipeline_status_guard (db : DB) (today : Int) (subject : String)
    (oracle : ExtractionReply) (wo_number : String) (wo : WorkOrder)
    (h1 : extract_wo_number_from_subject subject = some wo_number)
    (h2 : find_wo_by_number db wo_number = some wo)
    (h3 : wo.status ≠ "Approved") :
    extract_date_from_email db today subject oracle =
      { db := db
        response := mk_pipeline_error (some wo_number) (some wo.id) none
          ("Work order status is " ++ wo.status ++ ", must be Approved")
        oracle_calls := 0 } ∧
    (extract_date_from_email db today subject oracle).response.status = "Error" ∧
    (extract_date_from_email db today subject oracle).oracle_calls = 0 := by
  have hmain : extract_date_from_email db today subject oracle =
      { db := db
        response := mk_pipeline_error (some wo_number) (some wo.id) none
          ("Work order status is " ++ wo.status ++ ", must be Approved")
        oracle_calls := 0 } := by
    unfold extract_date_from_email
    simp only [h1, h2]
    rw [if_pos h3]
  exact ⟨hmain, by rw [hmain]; rfl, by rw [hmain]⟩

/-- C5 witness: the guard theorem applied to a Draft work order located
from a lower-case subject. -/
theorem pipeline_status_guard_witness :
    extract_date_from_email c5_db 0 "RE: Work Order wo-2025-0001 update" c5_oracle =
      { db := c5_db
        response := mk_pipeline_error (some "WO-2025-0001") (some 1) none
          "Work order status is Draft, must be Approved"
        oracle_calls := 0 } ∧
    (extract_date_from_email c5_db 0 "RE: Work Order wo-2025-0001 update"
      c5_oracle).response.status = "Error" ∧
    (extract_date_from_email c5_db 0 "RE: Work Order wo-2025-0001 update"
      c5_oracle).oracle_calls = 0 :=
  pipeline_status_guard c5_db 0 "RE: Work Order wo-2025-0001 update" c5_oracle
    "WO-2025-0001" c5_wo rfl rfl (by decide)

/-- C8 counterexample: upserting only `status` for the matching
execution id also wipes the stored `errors`, counters,
`execution_time_ms` and `completed_at` — fields the call did not provide
do not keep their previous values. -/
theorem upsert_workflow_log_counterexample :
    c8_log.errors = some "machine 7 failed" ∧
    (upsert_workflow_log [c8_log] c8_call 999).2.errors = none ∧
    c8_log.machines_processed = 3 ∧
    (upsert_workflow_log [c8_log] c8_call 999).2.machines_processed = 0 ∧
    (upsert_workflow_log [c8_log] c8_call 999).1 =
      [{ c8_log with
          status := some "Success"
          machines_processed := 0
          work_orders_created := 0
          notifications_sent := 0
          errors := none
          execution_time_ms := none
          completed_at := none }] :=
  ⟨rfl, rfl, rfl, rfl, rfl⟩

/-- C8 (amended): on a match against a truthy (non-empty) execution id
the upsert overwrites all seven run-outcome fields with the call's values
(schema defaults for the omitted ones) while `id`, `workflow_name`,
`execution_id` and `started_at` keep their stored values and other rows
are untouched; with no truthy execution id (`None` or `""`, which Python
treats as falsy) or no match it inserts a new log whose `started_at`
defaults to the current time when omitted. -/
theorem upsert_workflow_log_spec (logs : List WorkflowLog) (log_data : WorkflowLogCreate)
    (now : Int) :
    (∀ eid l, log_data.execution_id = some eid → eid ≠ "" →
      find_log_by_execution_id logs eid = some l →
      upsert_workflow_log logs log_data now =
        (logs.map (fun x => if x.id == l.id then apply_upsert_update x log_data else x),
          apply_upsert_update l log_data) ∧
      (apply_upsert_update l log_data).id = l.id ∧
      (apply_upsert_update l log_data).workflow_name = l.workflow_name ∧
      (apply_upsert_update l log_data).execution_id = l.execution_id ∧
      (apply_upsert_update l log_data).started_at = l.started_at ∧
      (apply_upsert_update l log_data).status = log_data.status ∧
      (apply_upsert_update l log_data).machines_processed = log_data.machines_processed ∧
      (apply_upsert_update l log_data).work_orders_created = log_data.work_orders_created ∧
      (apply_upsert_update l log_data).notifications_sent = log_data.notifications_sent ∧
      (apply_upsert_update l log_data).errors = log_data.errors ∧
      (apply_upsert_update l log_data).execution_time_ms = log_data.execution_time_ms ∧
      (apply_upsert_update l log_data).completed_at = log_data.completed_at) ∧
    ((∀ eid, log_data.execution_id = some eid → eid ≠ "" →
        find_log_by_execution_id logs eid = none) →
      upsert_workflow_log logs log_data now = create_workflow_log logs log_data now ∧
      (create_workflow_log logs log_data now).1 =
        logs ++ [(create_workflow_log logs log_data now).2] ∧
      (create_workflow_log logs log_data now).2.started_at =
        (match log_data.started_at with | some t => t | none => now) ∧
      (create_workflow_log logs log_data now).2.workflow_name = log_data.workflow_name) := by
  constructor
  · intro eid l heid hne hfind
    refine ⟨?_, rfl, rfl, rfl, rfl, rfl, rfl, rfl, rfl, rfl, rfl, rfl⟩
    unfold upsert_workflow_log
    simp only [heid, if_neg hne, hfind]
  · intro hnone
    refine ⟨?_, rfl, rfl, rfl⟩
    unfold upsert_workflow_log
    cases heid : log_data.execution_id with
    | none => simp only
    | some eid =>
      by_cases hne : eid = ""
      · simp only [heid, if_pos hne]
      · simp only [heid, if_neg hne, hnone eid heid hne]

/-- C8 witness: the amended theorem applied to the `c8_log` store. -/
theorem upsert_workflow_log_spec_witness :
    upsert_workflow_log [c8_log] c8_call 999 =
      ([c8_log].map (fun x => if x.id == c8_log.id then apply_upsert_update x c8_call else x),
        apply_upsert_update c8_log c8_call) ∧
    (apply_upsert_update c8_log c8_call).workflow_name = c8_log.workflow_name ∧
    (apply_upsert_update c8_log c8_call).started_at = c8_log.started_at ∧
    (apply_upsert_update c8_log c8_call).errors = c8_call.errors := by
  have h := (upsert_workflow_log_spec [c8_log] c8_call 999).1 "exec-1" c8_log rfl
    (by decide) rfl
  exact ⟨h.1, h.2.2.1, h.2.2.2.2.1, h.2.2.2.2.2.2.2.2.2.1⟩

/-- C10: when a work order is located for a SEND_NOTIFICATION execution,
exactly one e-mail dispatch happens; the approval template is chosen iff
the located order is Approved, and in the fallback (non-Approved) case the
generic work-order template is sent with the decision's explanation and
confidence as the AI-context block that `_add_ai_context` renders. -/
theorem notification_template_choice (db : DB) (smtp_ok : Bool) (d : AIDecision)
    (m : Machine) (wo : WorkOrder)
    (hm : find_machine db d.machine_id = some m)
    (hwo : located_work_order db d.machine_id = some wo) :
    ∃ n : Notice,
      (send_notification_from_decision db smtp_ok d).2.2 = [n] ∧
      (n.template = .approval ↔ wo.status = "Approved") ∧
      (wo.status = "Approved" → n.ai_context = none) ∧
      (wo.status ≠ "Approved" →
        n.template = .workOrder ∧
        n.ai_context = some { explanation := some d.explanation
                              confidence := some d.confidence } ∧
        add_ai_context n.ai_context = .block d.explanation (some d.confidence)) := by
  unfold send_notification_from_decision
  simp only [hm, hwo]
  by_cases hst : wo.status = "Approved"
  · have hb : (wo.status == "Approved") = true := by simp [hst]
    simp only [hb, if_true]
    refine ⟨_, rfl, ?_, ?_, ?_⟩
    · simp [hst]
    · intro _
      rfl
    · intro hne
      exact absurd hst hne
  · have hb : (wo.status == "Approved") = false := by simp [hst]
    simp only [hb, Bool.false_eq_true, if_false]
    refine ⟨_, rfl, ?_, ?_, ?_⟩
    · simp [hst]
    · intro heq
      exact absurd heq hst
    · intro _
      exact ⟨rfl, rfl, rfl⟩

/-- C10 witness: the template-choice theorem applied to the fallback case
of `c10_db`. -/
theorem notification_template_choice_witness :
    ∃ n : Notice,
      (send_notification_from_decision c10_db true c4_decision).2.2 = [n] ∧
      (n.template = .approval ↔ c10_wo.status = "Approved") ∧
      (c10_wo.status = "Approved" → n.ai_context = none) ∧
      (c10_wo.status ≠ "Approved" →
        n.template = .workOrder ∧
        n.ai_context = some { explanation := some c4_decision.explanation
                              confidence := some c4_decision.confidence } ∧
        add_ai_context n.ai_context =
          .block c4_decision.explanation (some c4_decision.confidence)) :=
  notification_template_choice c10_db true c4_decision c4_machine c10_wo rfl rfl

end DysonPM
